import Mathlib

/-!
Verification of the sailing-agent evaluation engine.

The repository's evaluation engine (Episode Runner, Seed Scheduler,
Aggregator, Multi-Scenario Orchestrator) is referenced by the notebook
`src/notebooks/evaluate_agent.ipynb` but its implementation
(`src/evaluation.py`, `src/evaluate_submission.py`) is not present under
`src/`; those components are modelled here from the specification.  The
cross-scenario averaging (`total_success = sum(r['success_rate'] for r in
all_results.values()) / len(all_results)`) is present verbatim in the
notebook and is embedded from that source line.

Numeric values are embedded as rationals (`ℚ`); Python's `/` on an empty
collection's length is modelled by `pyDiv`, which raises
`ZeroDivisionError` exactly when the denominator is zero, as Python does.
Standard deviations are represented by their squares (population
variance, ddof 0, per the spec's recommendation) so that every field of a
summary stays rational and computable.
-/

namespace SailEval

/-- Error taxonomy of the evaluation engine (spec section 7), plus Python's
built-in `ZeroDivisionError` which the notebook's unguarded division can
raise. -/
inductive EvalError where
  | agentExecutionError (seed : Int) (stepIndex : Nat)
  | invalidSeedSpecError
  | emptyResultSetError
  | scenarioLookupError
  | zeroDivisionError
deriving DecidableEq, Repr

/-- Python division: raises `ZeroDivisionError` on a zero denominator,
otherwise returns the exact quotient. -/
def pyDiv (num den : ℚ) : Except EvalError ℚ :=
  if den = 0 then .error .zeroDivisionError else .ok (num / den)

/-- Modelled from the spec: the simulator contract of section 6
(`src/evaluation.py` is not under `src/`).  A simulator is constructible
from a seed (the Scenario Descriptor is baked into the structure value),
exposes `observe` and `step`, and is deterministic because every field is
a pure function: identical descriptor and seed reproduce identical
observations, rewards and terminal signals.  `step` returns
(next state, reward, terminal flag, success flag). -/
structure Simulator (σ Obs Action : Type) where
  init : Int → σ
  observe : σ → Obs
  step : σ → Action → σ × ℚ × Bool × Bool

/-- Modelled from the spec: the agent contract of section 6.  `reset`
reinitialises the internal policy state; `selectAction` may raise (the
`Except.error` case models a Python exception during action selection). -/
structure Agent (π Obs Action : Type) where
  start : π
  reset : π → π
  selectAction : π → Obs → Except Unit (Action × π)

/-- Episode Outcome (spec section 3): seed, total reward, step count and
success flag of one seeded episode. -/
structure EpisodeOutcome where
  seed : Int
  total_reward : ℚ
  step_count : Nat
  success : Bool
deriving DecidableEq, Repr

/-- How an episode's loop ended: by horizon exhaustion, or by the
simulator's own terminal signal carrying its success flag. -/
inductive EndKind where
  | horizon
  | terminal (flag : Bool)
deriving DecidableEq, Repr

variable {σ π Obs Action : Type}

/-- Modelled from the spec: the Episode Runner loop of section 4.1
(`src/evaluation.py` is not under `src/`).  `fuel` is the remaining step
budget, `acc` the reward accumulated so far, `steps` the number of
transitions taken so far.  On fuel exhaustion the episode ends with
`success = false`; on a terminal signal it ends with the simulator's own
success flag; if the agent raises during action selection the whole
episode fails with `AgentExecutionError` carrying the seed and the step
index — no default action is substituted. -/
def runEpisodeLoop (sim : Simulator σ Obs Action) (ag : Agent π Obs Action)
    (seed : Int) : Nat → σ → π → ℚ → Nat → Except EvalError (EpisodeOutcome × EndKind)
  | 0, _, _, acc, steps => .ok (⟨seed, acc, steps, false⟩, .horizon)
  | fuel + 1, s, p, acc, steps =>
    match ag.selectAction p (sim.observe s) with
    | .error _ => .error (.agentExecutionError seed steps)
    | .ok ap =>
      let r := sim.step s ap.1
      if r.2.2.1 then .ok (⟨seed, acc + r.2.1, steps + 1, r.2.2.2⟩, .terminal r.2.2.2)
      else runEpisodeLoop sim ag seed fuel r.1 ap.2 (acc + r.2.1) (steps + 1)

/-- Modelled from the spec: run one seeded episode to termination
(section 4.1).  The simulator instance is created locally from the seed
and the agent is reset before the loop, so the call has no side effects
and depends only on its arguments. -/
def runEpisodeE (sim : Simulator σ Obs Action) (ag : Agent π Obs Action)
    (seed : Int) (maxHorizon : Nat) : Except EvalError (EpisodeOutcome × EndKind) :=
  runEpisodeLoop sim ag seed maxHorizon (sim.init seed) (ag.reset ag.start) 0 0

/-- The Episode Runner's result with the internal end-kind projected away:
exactly one Episode Outcome per seeded invocation. -/
def runEpisode (sim : Simulator σ Obs Action) (ag : Agent π Obs Action)
    (seed : Int) (maxHorizon : Nat) : Except EvalError EpisodeOutcome :=
  (runEpisodeE sim ag seed maxHorizon).map Prod.fst

/-- The live (state, policy) pair reached after `j` successful,
non-terminal steps of the episode loop, `none` if the agent raised or the
simulator signalled termination earlier. -/
def liveAfter (sim : Simulator σ Obs Action) (ag : Agent π Obs Action) :
    Nat → σ × π → Option (σ × π)
  | 0, st => some st
  | j + 1, st =>
    match ag.selectAction st.2 (sim.observe st.1) with
    | .error _ => none
    | .ok ap =>
      let r := sim.step st.1 ap.1
      if r.2.2.1 then none
      else liveAfter sim ag j (r.1, ap.2)

/-- Modelled from the spec: a seed specification (section 4.2 and the CLI
surface of `src/evaluate_submission.py`, not under `src/`): a single
integer, an explicit ordered list, or a (start, count) pair. -/
inductive SeedSpec where
  | single (s : Int)
  | explicitList (seeds : List Int)
  | startCount (start : Int) (count : Int)
deriving DecidableEq, Repr

/-- A seed specification is malformed when the explicit list is empty or
the count of a (start, count) pair is ≤ 0.  Stated from the spec's words
(section 4.2) to compare against the scheduler's behaviour. -/
def SeedSpec.malformed : SeedSpec → Bool
  | .single _ => false
  | .explicitList l => l.isEmpty
  | .startCount _ count => count ≤ 0

/-- Modelled from the spec: the Seed Scheduler (section 4.2,
`src/evaluate_submission.py` not under `src/`).  Expands a seed
specification into an ordered sequence of seeds: a single seed becomes a
one-element list, an explicit list is returned unchanged, a
(start, count) pair expands to `count` consecutive integers beginning at
`start`.  Raises `InvalidSeedSpecError` when count ≤ 0 or the list is
empty. -/
def expandSeeds : SeedSpec → Except EvalError (List Int)
  | .single s => .ok [s]
  | .explicitList l => if l.isEmpty then .error .invalidSeedSpecError else .ok l
  | .startCount start count =>
    if count ≤ 0 then .error .invalidSeedSpecError
    else .ok ((List.range count.toNat).map (fun i : Nat => start + i))

/-- Scenario Summary (spec section 3).  `std_reward`/`std_steps` are
carried as their squares (`var_reward`/`var_steps`, population variance,
ddof 0) so the record stays rational; the ordered list of Episode
Outcomes is retained in `individual`. -/
structure ScenarioSummary where
  success_rate : ℚ
  mean_reward : ℚ
  var_reward : ℚ
  mean_steps : ℚ
  var_steps : ℚ
  individual : List EpisodeOutcome
deriving DecidableEq, Repr

/-- Number of outcomes whose success flag is set. -/
def successCount (l : List EpisodeOutcome) : Nat :=
  (l.filter (fun o => o.success)).length

/-- Arithmetic mean of a list of rationals (0 on the empty list, but the
Aggregator never reaches that case). -/
def listMean (xs : List ℚ) : ℚ :=
  xs.sum / xs.length

/-- Population variance (ddof 0) of a list of rationals. -/
def listPopVar (xs : List ℚ) : ℚ :=
  (xs.map (fun x => (x - listMean xs) ^ 2)).sum / xs.length

/-- Modelled from the spec: the Aggregator (section 4.3,
`src/evaluation.py` not under `src/`).  On a non-empty ordered sequence
of Episode Outcomes it computes the Scenario Summary: `success_rate` is
the fraction of outcomes with `success = true`, `mean_reward` and
`mean_steps` are arithmetic means, the deviations use the population
convention.  On an empty input it raises `EmptyResultSetError` and never
returns a NaN-valued or zero-filled summary. -/
def aggregate (l : List EpisodeOutcome) : Except EvalError ScenarioSummary :=
  if l.isEmpty then .error .emptyResultSetError
  else
    .ok { success_rate := (successCount l : ℚ) / l.length
        , mean_reward := listMean (l.map (fun o => o.total_reward))
        , var_reward := listPopVar (l.map (fun o => o.total_reward))
        , mean_steps := listMean (l.map (fun o => (o.step_count : ℚ)))
        , var_steps := listPopVar (l.map (fun o => (o.step_count : ℚ)))
        , individual := l }

/-- One independent Episode Runner invocation per seed; each entry of the
returned list is the result for the seed at the same position, so an
`AgentExecutionError` in one episode leaves every other episode's entry
untouched. -/
def runSeeds (sim : Simulator σ Obs Action) (ag : Agent π Obs Action)
    (maxHorizon : Nat) (seeds : List Int) : List (Except EvalError EpisodeOutcome) :=
  seeds.map (fun sd => runEpisode sim ag sd maxHorizon)

/-- Modelled from the spec: the single-scenario evaluation entry point
(`evaluate_agent` in the missing `src/evaluation.py`; sections 4.4 and
6).  The seed specification is expanded first, so a malformed
specification is surfaced as `InvalidSeedSpecError` before any episode
runs; per-episode agent errors are scoped to their episode (the
documented partial-tolerance policy of section 7) and the successful
outcomes are aggregated. -/
def evaluate_agent (sim : Simulator σ Obs Action) (ag : Agent π Obs Action)
    (spec : SeedSpec) (maxHorizon : Nat) : Except EvalError ScenarioSummary :=
  match expandSeeds spec with
  | .error e => .error e
  | .ok seeds =>
    aggregate ((runSeeds sim ag maxHorizon seeds).filterMap Except.toOption)

/-- Embedding of the notebook line
`total_success = sum(r['success_rate'] for r in all_results.values()) / len(all_results)`
(cell "Evaluate on All Training Scenarios"): the per-scenario success
rates are summed and divided by the number of scenarios with no emptiness
guard, so an empty collection raises `ZeroDivisionError`. -/
def total_success (summaries : List ScenarioSummary) : Except EvalError ℚ :=
  pyDiv (summaries.map (fun s => s.success_rate)).sum (summaries.length : ℚ)

/-- The pooled, count-weighted success rate over all retained episodes of
all scenarios.  Stated from the spec's words (section 3: the overall rate
is "NOT a pooled rate over all episodes") solely to contrast with
`total_success`. -/
def pooledSuccessRate (summaries : List ScenarioSummary) : ℚ :=
  ((summaries.map (fun s => (successCount s.individual : ℚ))).sum) /
    ((summaries.map (fun s => (s.individual.length : ℚ))).sum)

/-- The orchestrator's accumulator: the notebook variable `all_results`
mapping scenario names to their evaluation results. -/
def OrchestratorState : Type :=
  List (String × Except EvalError ScenarioSummary)

/-- Embedding of the notebook's multi-scenario cell: `all_results = {}`
is created fresh at the start of every call (the `prior` argument — the
accumulator left over from an earlier run — is overwritten, which is how
the notebook cell begins), each scenario is evaluated in listed order,
and the overall rate is `total_success` over the collected summaries.
Returns (per-scenario results paired with the overall rate, the
accumulator as it is left for a later call). -/
def evaluateAllWithState (scenarios : List (String × Simulator σ Obs Action))
    (ag : Agent π Obs Action) (spec : SeedSpec) (maxHorizon : Nat)
    (prior : OrchestratorState) :
    (OrchestratorState × Except EvalError ℚ) × OrchestratorState :=
  let fresh : OrchestratorState := []
  let results := scenarios.foldl
    (fun acc nc => acc ++ [(nc.1, evaluate_agent nc.2 ag spec maxHorizon)]) fresh
  let rates := results.filterMap (fun r => (Except.toOption r.2).map (fun s => s.success_rate))
  ((results, pyDiv rates.sum (results.length : ℚ)), results)

/-- The multi-scenario entry point `evaluate_all` (spec section 6): a run
started with an empty accumulator. -/
def evaluate_all (scenarios : List (String × Simulator σ Obs Action))
    (ag : Agent π Obs Action) (spec : SeedSpec) (maxHorizon : Nat) :
    OrchestratorState × Except EvalError ℚ :=
  (evaluateAllWithState scenarios ag spec maxHorizon []).1

/-- A small concrete deterministic simulator for evaluating the engine on
closed inputs: integer state starting at 0, reward 1 per step, terminal
with success once the state reaches 3. -/
def demoSim : Simulator Int Int Int :=
  { init := fun _ => 0
  , observe := fun s => s
  , step := fun s a => (s + a, 1, decide (3 ≤ s + a), decide (3 ≤ s + a)) }

/-- A concrete agent that always moves by 1 and never raises. -/
def demoAgent : Agent Unit Int Int :=
  { start := ()
  , reset := fun p => p
  , selectAction := fun p _ => .ok (1, p) }

/-- A concrete agent that raises during action selection at step index 2
(its policy state counts the steps taken so far). -/
def failAgent : Agent Nat Int Int :=
  { start := 0
  , reset := fun _ => 0
  , selectAction := fun n _ => if n = 2 then .error () else .ok (1, n + 1) }

/-- The five Episode Outcomes of the spec's aggregation example:
rewards [100, 0, 0, 0, 100] and successes [T, F, F, F, T]. -/
def exampleOutcomes : List EpisodeOutcome :=
  [⟨42, 100, 50, true⟩, ⟨43, 0, 200, false⟩, ⟨44, 0, 200, false⟩,
   ⟨45, 0, 200, false⟩, ⟨46, 100, 60, true⟩]

/-- Claim C1: for every fixed scenario, seed, agent and horizon, two
independent Episode Runner invocations produce bit-identical Episode
Outcomes: the same total_reward, the same step_count and the same success
flag.  The runner is a pure function of (scenario, seed, agent, horizon)
— the simulator instance is created locally from the seed and the
deterministic simulator contract — so any two invocations that return an
outcome return equal components. -/
theorem runEpisode_deterministic {σ π Obs Action : Type}
    (sim : Simulator σ Obs Action) (ag : Agent π Obs Action) (seed : Int) (mh : Nat)
    (o₁ o₂ : EpisodeOutcome)
    (h₁ : runEpisode sim ag seed mh = .ok o₁)
    (h₂ : runEpisode sim ag seed mh = .ok o₂) :
    o₁.total_reward = o₂.total_reward ∧ o₁.step_count = o₂.step_count ∧
      o₁.success = o₂.success := by
  have h : o₁ = o₂ := Except.ok.inj (h₁.symm.trans h₂)
  subst h
  exact ⟨rfl, rfl, rfl⟩

/-- Witness for C1: a concrete three-step episode of the demo simulator,
evaluated twice, agrees on every component. -/
theorem runEpisode_deterministic_witness :
    runEpisode demoSim demoAgent 0 10 = .ok ⟨0, 3, 3, true⟩ ∧
      ((⟨0, 3, 3, true⟩ : EpisodeOutcome).total_reward =
          (⟨0, 3, 3, true⟩ : EpisodeOutcome).total_reward ∧
        (⟨0, 3, 3, true⟩ : EpisodeOutcome).step_count =
          (⟨0, 3, 3, true⟩ : EpisodeOutcome).step_count ∧
        (⟨0, 3, 3, true⟩ : EpisodeOutcome).success =
          (⟨0, 3, 3, true⟩ : EpisodeOutcome).success) := by
  have h : runEpisode demoSim demoAgent 0 10 = .ok ⟨0, 3, 3, true⟩ := by
    norm_num [runEpisode, runEpisodeE, runEpisodeLoop, demoSim, demoAgent, Except.map]
  exact ⟨h, runEpisode_deterministic demoSim demoAgent 0 10 _ _ h h⟩

/-- Invariant of the Episode Runner loop: a returned outcome takes at
most `steps + fuel` transitions; ending by horizon exhaustion uses the
whole budget and carries `success = false`; ending on the simulator's
terminal signal carries exactly the simulator's success flag. -/
theorem runEpisodeLoop_spec {σ π Obs Action : Type}
    (sim : Simulator σ Obs Action) (ag : Agent π Obs Action) (seed : Int) :
    ∀ (fuel : Nat) (s : σ) (p : π) (acc : ℚ) (steps : Nat) (o : EpisodeOutcome) (k : EndKind),
      runEpisodeLoop sim ag seed fuel s p acc steps = .ok (o, k) →
      o.step_count ≤ steps + fuel ∧
        (k = .horizon → o.step_count = steps + fuel ∧ o.success = false) ∧
        (∀ b, k = .terminal b → o.success = b) := by
  intro fuel
  induction fuel with
  | zero =>
    intro s p acc steps o k h
    simp only [runEpisodeLoop, Except.ok.injEq, Prod.mk.injEq] at h
    obtain ⟨rfl, rfl⟩ := h
    refine ⟨Nat.le_refl _, fun _ => ⟨rfl, rfl⟩, fun b hb => ?_⟩
    cases hb
  | succ fuel ih =>
    intro s p acc steps o k h
    simp only [runEpisodeLoop] at h
    split at h
    · cases h
    · split at h
      · simp only [Except.ok.injEq, Prod.mk.injEq] at h
        obtain ⟨rfl, rfl⟩ := h
        dsimp only
        refine ⟨by omega, fun hk => ?_, fun b hb => ?_⟩
        · cases hk
        · cases hb
          rfl
      · obtain ⟨h1, h2, h3⟩ := ih _ _ _ _ o k h
        exact ⟨by omega, fun hk => ⟨by have := (h2 hk).1; omega, (h2 hk).2⟩, h3⟩

/-- Claim C4: every episode satisfies step_count ≤ max_horizon; the loop
ends on the earlier of the simulator's terminal signal or the step count
reaching the horizon (an episode that ends by horizon exhaustion has used
exactly max_horizon steps and has success = false), and an episode ended
by the simulator's terminal signal carries exactly the simulator's own
success flag — so success = true only when the termination signal
indicates goal completion. -/
theorem runEpisode_horizon_bound {σ π Obs Action : Type}
    (sim : Simulator σ Obs Action) (ag : Agent π Obs Action) (seed : Int) (mh : Nat)
    (o : EpisodeOutcome) (k : EndKind)
    (hrun : runEpisodeE sim ag seed mh = .ok (o, k)) :
    o.step_count ≤ mh ∧
      (k = .horizon → o.step_count = mh ∧ o.success = false) ∧
      (∀ b, k = .terminal b → o.success = b) := by
  have h := runEpisodeLoop_spec sim ag seed mh (sim.init seed) (ag.reset ag.start) 0 0 o k hrun
  simpa using h

/-- Witness for C4: with horizon 2 the demo episode is cut off after
exactly 2 steps, ends by horizon exhaustion and is not a success. -/
theorem runEpisode_horizon_bound_witness :
    runEpisodeE demoSim demoAgent 0 2 = .ok (⟨0, 2, 2, false⟩, .horizon) ∧
      ((⟨0, 2, 2, false⟩ : EpisodeOutcome).step_count ≤ 2 ∧
        (EndKind.horizon = .horizon →
          (⟨0, 2, 2, false⟩ : EpisodeOutcome).step_count = 2 ∧
            (⟨0, 2, 2, false⟩ : EpisodeOutcome).success = false) ∧
        (∀ b, EndKind.horizon = .terminal b →
          (⟨0, 2, 2, false⟩ : EpisodeOutcome).success = b)) := by
  have h : runEpisodeE demoSim demoAgent 0 2 = .ok (⟨0, 2, 2, false⟩, .horizon) := by
    norm_num [runEpisodeE, runEpisodeLoop, demoSim, demoAgent]
  exact ⟨h, runEpisode_horizon_bound demoSim demoAgent 0 2 _ _ h⟩

/-- If the episode is still live after `j` steps and the agent raises at
that point, the episode loop fails with `AgentExecutionError` carrying
the seed and the absolute step index `steps + j`. -/
theorem runEpisodeLoop_agent_raise {σ π Obs Action : Type}
    (sim : Simulator σ Obs Action) (ag : Agent π Obs Action) (seed : Int) :
    ∀ (j fuel : Nat) (s : σ) (p : π) (s' : σ) (p' : π) (acc : ℚ) (steps : Nat),
      j < fuel →
      liveAfter sim ag j (s, p) = some (s', p') →
      ag.selectAction p' (sim.observe s') = .error () →
      runEpisodeLoop sim ag seed fuel s p acc steps =
        .error (.agentExecutionError seed (steps + j)) := by
  intro j
  induction j with
  | zero =>
    intro fuel s p s' p' acc steps hj hlive hraise
    simp only [liveAfter, Option.some.injEq, Prod.mk.injEq] at hlive
    obtain ⟨rfl, rfl⟩ := hlive
    cases fuel with
    | zero => omega
    | succ fuel =>
      simp only [runEpisodeLoop, hraise, Nat.add_zero]
  | succ j ih =>
    intro fuel s p s' p' acc steps hj hlive hraise
    simp only [liveAfter] at hlive
    cases fuel with
    | zero => omega
    | succ fuel =>
      split at hlive
      · cases hlive
      · next ap hsel =>
        split at hlive
        · cases hlive
        · next hterm =>
          simp only [runEpisodeLoop, hsel]
          rw [if_neg hterm]
          have heq : steps + (j + 1) = (steps + 1) + j := by omega
          rw [heq]
          exact ih fuel (sim.step s ap.1).1 ap.2 s' p'
            (acc + (sim.step s ap.1).2.1) (steps + 1) (by omega) hlive hraise


/-- Claim C7: if the agent raises during action selection at step index
`j` of an episode that is still live there, the Episode Runner fails the
whole episode with an `AgentExecutionError` carrying the seed and that
step index (it never substitutes a default action — the episode's result
is this error, not an outcome); and the error aborts only that episode:
in a multi-seed run every episode's entry is exactly the independent
result for its own seed, untouched by any other episode's failure. -/
theorem agent_raise_fails_episode {σ π Obs Action : Type}
    (sim : Simulator σ Obs Action) (ag : Agent π Obs Action) (seed : Int)
    (mh j : Nat) (s' : σ) (p' : π)
    (hj : j < mh)
    (hlive : liveAfter sim ag j (sim.init seed, ag.reset ag.start) = some (s', p'))
    (hraise : ag.selectAction p' (sim.observe s') = .error ()) :
    runEpisodeE sim ag seed mh = .error (.agentExecutionError seed j) ∧
      (∀ (seeds : List Int) (i : Nat),
        (runSeeds sim ag mh seeds)[i]? =
          (seeds[i]?).map (fun sd => runEpisode sim ag sd mh)) := by
  constructor
  · have h := runEpisodeLoop_agent_raise sim ag seed j mh (sim.init seed)
      (ag.reset ag.start) s' p' 0 0 hj hlive hraise
    simpa [runEpisodeE] using h
  · intro seeds i
    simp [runSeeds]

/-- Witness for C7: the raising demo agent fails at step index 2, so the
episode with seed 7 and horizon 10 results in
`AgentExecutionError 7 2`. -/
theorem agent_raise_fails_episode_witness :
    runEpisodeE demoSim failAgent 7 10 = .error (.agentExecutionError 7 2) ∧
      (∀ (seeds : List Int) (i : Nat),
        (runSeeds demoSim failAgent 10 seeds)[i]? =
          (seeds[i]?).map (fun sd => runEpisode demoSim failAgent sd 10)) := by
  have hlive : liveAfter demoSim failAgent 2 (demoSim.init 7, failAgent.reset failAgent.start) =
      some (2, 2) := by
    norm_num [liveAfter, demoSim, failAgent]
  have hraise : failAgent.selectAction 2 (demoSim.observe 2) = .error () := by
    norm_num [demoSim, failAgent]
  exact agent_raise_fails_episode demoSim failAgent 7 10 2 2 2 (by omega) hlive hraise

/-- Claim C5: every valid seed specification expands to an ordered
sequence of length ≥ 1; a (start, count) pair expands to count
consecutive integers beginning at start, so (1, 5) yields exactly
[1, 2, 3, 4, 5]; an explicit list such as [42, 43, 44] is returned
unchanged in its given order. -/
theorem expandSeeds_spec :
    (∀ (spec : SeedSpec) (l : List Int), expandSeeds spec = .ok l → 1 ≤ l.length) ∧
      (∀ start count : Int, 0 < count →
        ∃ l, expandSeeds (.startCount start count) = .ok l ∧
          l.length = count.toNat ∧ ∀ i : Nat, i < count.toNat → l[i]? = some (start + i)) ∧
      (∀ l : List Int, l ≠ [] → expandSeeds (.explicitList l) = .ok l) ∧
      expandSeeds (.startCount 1 5) = .ok [1, 2, 3, 4, 5] ∧
      expandSeeds (.explicitList [42, 43, 44]) = .ok [42, 43, 44] := by
  refine ⟨?_, ?_, ?_, rfl, rfl⟩
  · intro spec l h
    cases spec with
    | single s =>
      simp only [expandSeeds, Except.ok.injEq] at h
      subst h
      simp
    | explicitList l0 =>
      by_cases he : l0.isEmpty
      · simp [expandSeeds, he] at h
      · simp only [expandSeeds, he, Bool.false_eq_true, if_false, Except.ok.injEq] at h
        have hne : l0 ≠ [] := by simpa [List.isEmpty_iff] using he
        have hp := List.length_pos.mpr hne
        rw [← h]
        omega
    | startCount start count =>
      by_cases hc : count ≤ 0
      · simp [expandSeeds, hc] at h
      · simp only [expandSeeds, if_neg hc, Except.ok.injEq] at h
        subst h
        simp only [List.length_map, List.length_range]
        omega
  · intro start count hc
    have hc' : ¬ count ≤ 0 := by omega
    refine ⟨(List.range count.toNat).map (fun i : Nat => start + i),
      by simp only [expandSeeds, if_neg hc'], by simp, ?_⟩
    intro i hi
    simp [List.getElem?_map, List.getElem?_range hi]
  · intro l hl
    have he : l.isEmpty = false := by simpa [List.isEmpty_iff] using hl
    simp [expandSeeds, he]

/-- Witness for C5: the hypothesis-bearing parts instantiated on the
spec's own examples, (start, count) = (1, 5) and the explicit list
[42, 43, 44]. -/
theorem expandSeeds_spec_witness :
    (∃ l, expandSeeds (.startCount 1 5) = .ok l ∧
        l.length = (5 : Int).toNat ∧ ∀ i : Nat, i < (5 : Int).toNat → l[i]? = some (1 + i)) ∧
      expandSeeds (.explicitList [42, 43, 44]) = .ok [42, 43, 44] ∧
      1 ≤ ([42, 43, 44] : List Int).length :=
  ⟨expandSeeds_spec.2.1 1 5 (by norm_num),
   expandSeeds_spec.2.2.1 [42, 43, 44] (by simp),
   expandSeeds_spec.1 (.explicitList [42, 43, 44]) [42, 43, 44]
     (expandSeeds_spec.2.2.1 [42, 43, 44] (by simp))⟩

/-- Claim C2: on every non-empty sequence of Episode Outcomes the
Aggregator returns a Scenario Summary whose success_rate is the fraction
of outcomes with success = true and whose mean_reward/mean_steps are the
arithmetic means of total_reward/step_count. -/
theorem aggregate_spec (l : List EpisodeOutcome) (hne : l ≠ []) :
    ∃ s, aggregate l = .ok s ∧
      s.success_rate = (successCount l : ℚ) / l.length ∧
      s.mean_reward = (l.map (fun o => o.total_reward)).sum / l.length ∧
      s.mean_steps = (l.map (fun o => (o.step_count : ℚ))).sum / l.length := by
  have he : l.isEmpty = false := by simpa [List.isEmpty_iff] using hne
  refine ⟨{ success_rate := (successCount l : ℚ) / l.length
          , mean_reward := listMean (l.map (fun o => o.total_reward))
          , var_reward := listPopVar (l.map (fun o => o.total_reward))
          , mean_steps := listMean (l.map (fun o => (o.step_count : ℚ)))
          , var_steps := listPopVar (l.map (fun o => (o.step_count : ℚ)))
          , individual := l }, ?_, rfl, ?_, ?_⟩
  · simp only [aggregate, he, Bool.false_eq_true, if_false]
  · simp [listMean]
  · simp [listMean]

/-- Witness for C2, the spec's own instance: outcomes with rewards
[100, 0, 0, 0, 100] and successes [T, F, F, F, T] aggregate to
success_rate = 2/5 (the exact value of 0.4) and mean_reward = 40. -/
theorem aggregate_spec_witness :
    exampleOutcomes ≠ [] ∧
      ∃ s, aggregate exampleOutcomes = .ok s ∧
        s.success_rate = 2 / 5 ∧ s.mean_reward = 40 := by
  have hne : exampleOutcomes ≠ [] := by simp [exampleOutcomes]
  obtain ⟨s, hs, h1, h2, _⟩ := aggregate_spec exampleOutcomes hne
  refine ⟨hne, s, hs, ?_, ?_⟩
  · rw [h1]
    norm_num [exampleOutcomes, successCount, List.filter]
  · rw [h2]
    norm_num [exampleOutcomes]

/-- Claim C6: the Aggregator applied to an empty sequence of Episode
Outcomes raises `EmptyResultSetError` — its result is that error, so no
NaN-valued or zero-filled Scenario Summary is returned for empty
input. -/
theorem aggregate_empty :
    aggregate ([] : List EpisodeOutcome) = .error .emptyResultSetError := by
  simp [aggregate]

/-- A successful demo Episode Outcome with the given seed. -/
def oS (sd : Int) : EpisodeOutcome := ⟨sd, 100, 10, true⟩

/-- A failed demo Episode Outcome with the given seed. -/
def oF (sd : Int) : EpisodeOutcome := ⟨sd, 0, 200, false⟩

/-- A demo Scenario Summary with success rate 1 over one retained
episode. -/
def sumA : ScenarioSummary := ⟨1, 100, 0, 10, 0, [oS 1]⟩

/-- A demo Scenario Summary with success rate 1/2 over two retained
episodes. -/
def sumB : ScenarioSummary := ⟨1/2, 50, 2500, 105, 9025, [oS 2, oF 3]⟩

/-- Claim C3: the Cross-Scenario Summary's overall success rate is the
unweighted arithmetic mean of the per-scenario success rates — an
average-of-averages weighting every scenario equally regardless of its
episode count.  Per-scenario rates [1, 1/2] give 3/4, while the pooled
count-weighted rate over the same scenarios (1 success in 1 episode and
1 success in 2 episodes) is 2/3 ≠ 3/4. -/
theorem total_success_unweighted :
    (∀ l : List ScenarioSummary, l ≠ [] →
        total_success l = .ok ((l.map (fun s => s.success_rate)).sum / (l.length : ℚ))) ∧
      total_success [sumA, sumB] = .ok (3 / 4) ∧
      pooledSuccessRate [sumA, sumB] = 2 / 3 ∧
      (3 / 4 : ℚ) ≠ 2 / 3 := by
  refine ⟨?_, ?_, ?_, by norm_num⟩
  · intro l hl
    have hpos := List.length_pos.mpr hl
    have hlen : (l.length : ℚ) ≠ 0 := by
      simpa using Nat.pos_iff_ne_zero.mp hpos
    simp [total_success, pyDiv, hlen]
  · norm_num [total_success, pyDiv, sumA, sumB]
  · norm_num [pooledSuccessRate, successCount, sumA, sumB, oS, oF, List.filter]

/-- Witness for C3: the unweighted-mean formula applied to the concrete
pair of summaries with rates [1, 1/2]. -/
theorem total_success_unweighted_witness :
    total_success [sumA, sumB] =
      .ok ((([sumA, sumB].map (fun s => s.success_rate)).sum) /
        (([sumA, sumB] : List ScenarioSummary).length : ℚ)) :=
  total_success_unweighted.1 [sumA, sumB] (by simp)

/-- Claim C8: the Seed Scheduler raises `InvalidSeedSpecError` exactly
when the seed specification is malformed — an empty explicit list or a
(start, count) pair with count ≤ 0 — and the evaluation entry point
surfaces that error before any episode runs: for a malformed
specification the result is the error for every simulator, agent and
horizon whatsoever, so no episode's execution can contribute to it. -/
theorem invalidSeedSpec_exact :
    (∀ spec : SeedSpec,
        expandSeeds spec = .error .invalidSeedSpecError ↔ spec.malformed = true) ∧
      (∀ (σ π Obs Action : Type) (sim : Simulator σ Obs Action) (ag : Agent π Obs Action)
          (spec : SeedSpec) (mh : Nat), spec.malformed = true →
          evaluate_agent sim ag spec mh = .error .invalidSeedSpecError) := by
  have hiff : ∀ spec : SeedSpec,
      expandSeeds spec = .error .invalidSeedSpecError ↔ spec.malformed = true := by
    intro spec
    cases spec with
    | single s => simp [expandSeeds, SeedSpec.malformed]
    | explicitList l =>
      by_cases he : l.isEmpty
      · simp [expandSeeds, SeedSpec.malformed, he]
      · simp [expandSeeds, SeedSpec.malformed, he]
    | startCount st c =>
      by_cases hc : c ≤ 0
      · simp [expandSeeds, SeedSpec.malformed, hc]
      · simp [expandSeeds, SeedSpec.malformed, hc]
  refine ⟨hiff, ?_⟩
  intro σ π Obs Action sim ag spec mh hm
  have herr := (hiff spec).mpr hm
  simp [evaluate_agent, herr]

/-- Witness for C8: the empty explicit list is malformed, the scheduler
raises `InvalidSeedSpecError` on it, and the evaluation entry point
surfaces that error on the demo simulator and agent. -/
theorem invalidSeedSpec_exact_witness :
    expandSeeds (.explicitList []) = .error .invalidSeedSpecError ∧
      evaluate_agent demoSim demoAgent (.explicitList []) 5 = .error .invalidSeedSpecError :=
  ⟨(invalidSeedSpec_exact.1 (.explicitList [])).mpr rfl,
   invalidSeedSpec_exact.2 Int Unit Int Int demoSim demoAgent (.explicitList []) 5 rfl⟩

/-- Claim C9: `evaluate_all` is idempotent — a second run with identical
inputs, started from the accumulator state the first run left behind,
returns exactly the first run's Cross-Scenario Summary; and the result
never depends on the incoming accumulator at all (the orchestrator
recreates `all_results` from scratch on every call), so the result of a
call depends only on its arguments. -/
theorem evaluate_all_idempotent (σ π Obs Action : Type)
    (scenarios : List (String × Simulator σ Obs Action)) (ag : Agent π Obs Action)
    (spec : SeedSpec) (mh : Nat) (st₀ st₁ st₂ : OrchestratorState) :
    (evaluateAllWithState scenarios ag spec mh
        (evaluateAllWithState scenarios ag spec mh st₀).2).1 =
      evaluate_all scenarios ag spec mh ∧
      (evaluateAllWithState scenarios ag spec mh st₁).1 =
        (evaluateAllWithState scenarios ag spec mh st₂).1 :=
  ⟨rfl, rfl⟩

/-- Claim C10: the overall cross-scenario success rate divides the sum of
per-scenario rates by the number of scenarios with no guard, so on an
empty scenario collection the computation raises `ZeroDivisionError`
rather than returning a defined summary value. -/
theorem total_success_empty_zero_division :
    total_success ([] : List ScenarioSummary) = .error .zeroDivisionError := by
  simp [total_success, pyDiv]



/-- Witness for C9: the idempotence equations instantiated on a concrete
one-scenario run of the demo simulator and agent. -/
theorem evaluate_all_idempotent_witness :
    (evaluateAllWithState [("demo", demoSim)] demoAgent (.single 3) 4
        (evaluateAllWithState [("demo", demoSim)] demoAgent (.single 3) 4 []).2).1 =
      evaluate_all [("demo", demoSim)] demoAgent (.single 3) 4 ∧
      (evaluateAllWithState [("demo", demoSim)] demoAgent (.single 3) 4 []).1 =
        (evaluateAllWithState [("demo", demoSim)] demoAgent (.single 3) 4 []).1 :=
  evaluate_all_idempotent Int Unit Int Int [("demo", demoSim)] demoAgent (.single 3) 4 [] [] []

end SailEval
